import Mathlib

/-!
Verification of the execution driver and watch instrumentation layer of
`runner.py`.  The definitions below are a shallow embedding of the source:
Python's dynamic values become the tagged union `Value`, the environment
dict becomes an insertion-ordered association list, and every `print`
becomes an explicit output line carrying its stream (stdout/stderr) and
its origin (the program/driver itself, or the watch instrumentation side
channel).  The external collaborators `tokenize`, `parse` and `evaluate`
are not part of the repository; they are modelled from the spec (section 6)
as a `Pipeline` record, and theorems quantify over pipelines wherever the
driver does not depend on their behaviour.
-/

namespace Runner

/-- The script language's dynamic value domain (spec section 3): null,
boolean, integer, string, ordered sequence, mapping.  Floats are omitted:
no claim depends on them and they do not embed exactly. -/
inductive Value where
  | null : Value
  | bool (b : Bool) : Value
  | int (n : Int) : Value
  | str (s : String) : Value
  | list (vs : List Value) : Value
  | dict (kvs : List (String × Value)) : Value

/-- The environment: Python dict from names to values, insertion ordered. -/
abbrev Env := List (String × Value)

/-- Python `s.startswith(pre)`, as a structural recursion over the
characters (kept computable down to the kernel). -/
def pyStartsWith (s pre : String) : Bool :=
  pre.data.isPrefixOf s.data

/-- Python `s[n:]`. -/
def pyDrop (s : String) (n : Nat) : String :=
  ⟨s.data.drop n⟩

/-- A character Python's str.strip() removes. -/
def pyWhitespace (c : Char) : Bool :=
  c == ' ' || c == '\t' || c == '\n' || c == '\r'

/-- Python `s.strip()`. -/
def pyStrip (s : String) : String :=
  ⟨((s.data.dropWhile pyWhitespace).reverse.dropWhile pyWhitespace).reverse⟩

/-- Lookup of `environment[k]` / `k in environment`. -/
def envLookup : Env → String → Option Value
  | [], _ => none
  | (k', v') :: rest, k => if k' = k then some v' else envLookup rest k

/-- Assignment `environment[k] = v`: updates in place, appends a new key at
the end (Python dict insertion-order semantics). -/
def envSet : Env → String → Value → Env
  | [], k, v => [(k, v)]
  | (k', v') :: rest, k, v =>
      if k' = k then (k', v) :: rest else (k', v') :: envSet rest k v

/-- Output stream of one printed line: `print(...)` vs `print(..., file=sys.stderr)`. -/
inductive Channel where
  | stdout : Channel
  | stderr : Channel
deriving DecidableEq, Repr

/-- Who printed a line: the driver / the program itself (primary output),
or the watch instrumentation side channel. -/
inductive Origin where
  | primary : Origin
  | watch : Origin
deriving DecidableEq, Repr

/-- One printed line. -/
structure OutLine where
  chan : Channel
  origin : Origin
  text : String
deriving DecidableEq, Repr

mutual

/-- WatchContext._format_value (runner.py lines 32-46): canonical rendering
of a dynamic value.  The isinstance dispatch of the source becomes a match
on the value's tag; the recursion through lists and dicts is the source's
generator expressions. -/
def formatValue : Value → String
  | .str s => "\"" ++ s ++ "\""
  | .bool b => if b then "true" else "false"
  | .list vs => "[" ++ String.intercalate ", " (formatValueList vs) ++ "]"
  | .dict kvs => "\x7b" ++ String.intercalate ", " (formatValuePairs kvs) ++ "\x7d"
  | .null => "null"
  | .int n => toString n

def formatValueList : List Value → List String
  | [] => []
  | v :: vs => formatValue v :: formatValueList vs

def formatValuePairs : List (String × Value) → List String
  | [] => []
  | (k, v) :: kvs => ("\"" ++ k ++ "\": " ++ formatValue v) :: formatValuePairs kvs

end

/-- WatchContext (runner.py lines 8-46): watched name, derived enabled
flag, and the (never populated) call stack. -/
structure WatchContext where
  watch_var : Option String
  watch_enabled : Bool
  stack_trace : List String
deriving DecidableEq, Repr

/-- WatchContext.__init__ (lines 10-13). -/
def WatchContext.init (watch_var : Option String) : WatchContext :=
  { watch_var := watch_var
    watch_enabled := watch_var.isSome
    stack_trace := [] }

/-- WatchContext._get_location (lines 24-30): top frame of the stack if
any, else module level. -/
def WatchContext.getLocation (c : WatchContext) : String :=
  match c.stack_trace.getLast? with
  | some f => "in function '" ++ f ++ "'"
  | none => "at module level"

/-- Python str() of an optional string, as an f-string renders it
(`None` for the absent case). -/
def pyStrOpt : Option String → String
  | some s => s
  | none => "None"

/-- WatchContext.record_change (lines 15-22), with the prints returned as
the list of emitted lines.  The depth line appears only when the stack is
non-empty. -/
def WatchContext.record_change (c : WatchContext) (var_name : String)
    (new_value : Value) : List String :=
  if c.watch_enabled && (some var_name == c.watch_var) then
    ["\n[WATCH: " ++ pyStrOpt c.watch_var ++ "] New value: " ++ formatValue new_value,
     "         Location: " ++ c.getLocation]
    ++ (if c.stack_trace.isEmpty then []
        else ["         Call stack depth: " ++ toString c.stack_trace.length])
  else []

/-- Outcome of parse_command_line_args: either the pair (filename, watch_var),
or a fatal configuration error (message printed, process exits with code). -/
inductive ArgsResult where
  | ok (filename : Option String) (watch_var : Option String) : ArgsResult
  | fatal (msg : String) (code : Int) : ArgsResult
deriving DecidableEq, Repr

/-- Loop body of parse_command_line_args (runner.py lines 62-73): one pass
over argv carrying the current filename and watch_var.  For an argument
starting with `watch=`, `arg.split("=", 1)[1]` is exactly the text after
the first 6 characters. -/
def parseArgsLoop : List String → Option String → Option String → ArgsResult
  | [], filename, watch_var => .ok filename watch_var
  | arg :: rest, filename, watch_var =>
    if pyStartsWith arg "watch=" then
      let w := pyDrop arg 6
      if w == "" then
        .fatal "Error: watch argument requires a variable name (watch=variable_name)" 1
      else parseArgsLoop rest filename (some w)
    else if pyStartsWith arg "-" then
      parseArgsLoop rest filename watch_var
    else
      parseArgsLoop rest (some arg) watch_var

/-- parse_command_line_args (runner.py lines 51-74) on `sys.argv[1:]`. -/
def parse_command_line_args (argv : List String) : ArgsResult :=
  parseArgsLoop argv none none

/-- Abstract syntax of the modelled script language, shaped after the dict
nodes wrapped_evaluate inspects (`ast["tag"]`, `ast["target"]`,
`target["value"]`).  The parser is an external collaborator, so the node
shapes beyond assignment follow the spec (section 6) only as far as the
claims need: literals, identifiers, sequencing, print and exit. -/
inductive AST where
  | number (n : Int) : AST
  | boolLit (b : Bool) : AST
  | strLit (s : String) : AST
  | identifier (name : String) : AST
  | assign (target : AST) (expr : AST) : AST
  | seq (first second : AST) : AST
  | printStmt (e : AST) : AST
  | exitStmt (e : AST) : AST

/-- The `ast["tag"]` field of the corresponding Python dict node. -/
def AST.tag : AST → String
  | .number _ => "number"
  | .boolLit _ => "boolean"
  | .strLit _ => "string"
  | .identifier _ => "identifier"
  | .assign _ _ => "assign"
  | .seq _ _ => "seq"
  | .printStmt _ => "print"
  | .exitStmt _ => "exit"

/-- Whether a variable name occurs anywhere in a syntax tree (as an
identifier use or an assignment target). -/
def astMentions (w : String) : AST → Bool
  | .number _ => false
  | .boolLit _ => false
  | .strLit _ => false
  | .identifier name => name == w
  | .assign target e => astMentions w target || astMentions w e
  | .seq a b => astMentions w a || astMentions w b
  | .printStmt e => astMentions w e
  | .exitStmt e => astMentions w e

/-- Result of one call to the evaluator collaborator.  Python's evaluate
mutates the environment in place and may raise: both branches therefore
carry the environment as it stands when the call returns or raises, plus
whatever the evaluation printed. -/
inductive EvalOutcome where
  | ok (value : Value) (signal : String) (env : Env) (out : List OutLine) : EvalOutcome
  | err (msg : String) (env : Env) (out : List OutLine) : EvalOutcome

/-- The environment as left behind by an evaluation, normal or raising. -/
def EvalOutcome.envOf : EvalOutcome → Env
  | .ok _ _ env _ => env
  | .err _ env _ => env

/-- The three external collaborators of spec section 6.  Tokens are opaque
to the driver, so they are modelled as strings. -/
structure Pipeline where
  tokenize : String → Except String (List String)
  parse : List String → Except String AST
  evaluate : AST → Env → EvalOutcome

/-- Modelled from the spec: the evaluator collaborator (spec section 6),
which is not part of the repository.  It mutates the environment for
assignments, returns the final value with a signal, and uses the signal
"exit" to request termination; all other signals mean normal completion.
Statement sequencing is binary (the collaborator's AST shape is opaque to
the driver), stops at an exit signal or an error, and yields the second
statement's value. -/
def specEvaluate : AST → Env → EvalOutcome
  | .number n, env => .ok (.int n) "normal" env []
  | .boolLit b, env => .ok (.bool b) "normal" env []
  | .strLit s, env => .ok (.str s) "normal" env []
  | .identifier x, env =>
      match envLookup env x with
      | some v => .ok v "normal" env []
      | none => .err ("Unknown variable: " ++ x) env []
  | .assign target e, env =>
      match target with
      | .identifier x =>
          match specEvaluate e env with
          | .ok v _ env' out => .ok .null "normal" (envSet env' x v) out
          | .err m env' out => .err m env' out
      | _ => .err "Invalid assignment target" env []
  | .seq a b, env =>
      match specEvaluate a env with
      | .ok v sig env' out =>
          if sig = "exit" then .ok v "exit" env' out
          else
            match specEvaluate b env' with
            | .ok v2 sig2 env2 out2 => .ok v2 sig2 env2 (out ++ out2)
            | .err m env2 out2 => .err m env2 (out ++ out2)
      | .err m env' out => .err m env' out
  | .printStmt e, env =>
      match specEvaluate e env with
      | .ok v _ env' out =>
          .ok .null "normal" env' (out ++ [⟨.stdout, .primary, formatValue v⟩])
      | .err m env' out => .err m env' out
  | .exitStmt e, env =>
      match specEvaluate e env with
      | .ok v _ env' out => .ok v "exit" env' out
      | .err m env' out => .err m env' out

/-- wrap_evaluate_for_watch (runner.py lines 77-97): the returned
wrapped_evaluate closure over the original evaluator and the watch
context.  The `ast["tag"] == "assign"` dict test of the source is the
match on the assign node; a raising original evaluator propagates, so the
err branch passes through untouched and the environment lookup never
runs. -/
def wrappedEvaluate (originalEvaluate : AST → Env → EvalOutcome)
    (watch_ctx : WatchContext) (ast : AST) (environment : Env) : EvalOutcome :=
  match ast with
  | .assign target _ =>
    if watch_ctx.watch_enabled then
      match target with
      | .identifier var_name =>
        match originalEvaluate ast environment with
        | .ok v sig env' out =>
            match envLookup env' var_name with
            | some new_value =>
                .ok v sig env'
                  (out ++ (watch_ctx.record_change var_name new_value).map
                    (fun s => ⟨Channel.stdout, Origin.watch, s⟩))
            | none => .ok v sig env' out
        | .err m env' out => .err m env' out
      | _ => originalEvaluate ast environment
    else originalEvaluate ast environment
  | _ => originalEvaluate ast environment

/-- Python `final_value if isinstance(final_value, int) else 0` followed
by sys.exit: isinstance(..., int) is also true of booleans (bool is a
subclass of int in Python), and sys.exit(True) terminates with code 1,
sys.exit(False) with code 0.  Every other non-integer value yields the
default code 0. -/
def pyExitCode : Value → Int
  | .int n => n
  | .bool b => if b then 1 else 0
  | _ => 0

/-- Python `final_value is None`. -/
def isNone : Value → Bool
  | .null => true
  | _ => false

mutual

/-- Python str() as print applies it to a value, without string-escape
handling (the source never escapes either).  Only the REPL's fallback
`print(final_value)` reaches this. -/
def pyStr : Value → String
  | .null => "None"
  | .bool b => if b then "True" else "False"
  | .int n => toString n
  | .str s => s
  | .list vs => "[" ++ String.intercalate ", " (pyReprList vs) ++ "]"
  | .dict kvs => "\x7b" ++ String.intercalate ", " (pyReprPairs kvs) ++ "\x7d"

/-- Python repr() of a container element: strings gain single quotes,
everything else prints as at top level. -/
def pyRepr : Value → String
  | .str s => "'" ++ s ++ "'"
  | .null => "None"
  | .bool b => if b then "True" else "False"
  | .int n => toString n
  | .list vs => "[" ++ String.intercalate ", " (pyReprList vs) ++ "]"
  | .dict kvs => "\x7b" ++ String.intercalate ", " (pyReprPairs kvs) ++ "\x7d"

def pyReprList : List Value → List String
  | [] => []
  | v :: vs => pyRepr v :: pyReprList vs

def pyReprPairs : List (String × Value) → List String
  | [] => []
  | (k, v) :: kvs => (pyRepr (.str k) ++ ": " ++ pyRepr v) :: pyReprPairs kvs

end

/-- REPL result display (runner.py lines 164-171): nothing for a None
result, canonical lowercase booleans, a dead `final_value is None` branch
inside the not-None block, and Python printing for everything else. -/
def replResultLines (final_value : Value) : List OutLine :=
  if isNone final_value then []
  else
    match final_value with
    | .bool b => [⟨Channel.stdout, Origin.primary, if b then "true" else "false"⟩]
    | v =>
        if isNone v then [⟨Channel.stdout, Origin.primary, "null"⟩]
        else [⟨Channel.stdout, Origin.primary, pyStr v⟩]

/-- Modelled from the spec: the REPL display rule of spec section 4.5
("on success with a normal signal and a non-null final value, the value is
printed"), stated without the source's unreachable null branch; compared
with replResultLines for the refinement claim about that branch. -/
def replDisplaySpec (final_value : Value) : List OutLine :=
  if isNone final_value then []
  else
    match final_value with
    | .bool b => [⟨Channel.stdout, Origin.primary, if b then "true" else "false"⟩]
    | v => [⟨Channel.stdout, Origin.primary, pyStr v⟩]

/-- The tokenize-parse-evaluate sequence shared by file mode (lines
124-126) and the REPL (lines 156-158), with the first raising stage
short-circuiting exactly as an exception does.  Tokenizing and parsing
never touch the environment, so their errors leave it unchanged. -/
def runPipelineStages (p : Pipeline) (source_code : String) (env : Env) :
    Except (String × Env × List OutLine) (Value × String × Env × List OutLine) :=
  match p.tokenize source_code with
  | .error e => .error (e, env, [])
  | .ok tokens =>
    match p.parse tokens with
    | .error e => .error (e, env, [])
    | .ok ast =>
      match p.evaluate ast env with
      | .ok v sig env' out => .ok (v, sig, env', out)
      | .err m env' out => .error (m, env', out)

/-- File mode after the file has been read (runner.py lines 120-134): a
pipeline error prints `Error: ...` to stderr and exits 1; an exit signal
exits with the Python exit code; otherwise main falls through (no exit
call, modelled as none). -/
def fileModeBody (p : Pipeline) (source_code : String) (env : Env) :
    List OutLine × Option Int :=
  match runPipelineStages p source_code env with
  | .error (m, _, out) =>
      (out ++ [⟨Channel.stderr, Origin.primary, "Error: " ++ m⟩], some 1)
  | .ok (v, sig, _, out) =>
      if sig = "exit" then (out, some (pyExitCode v)) else (out, none)

/-- File execution mode (runner.py lines 114-134): the existence check
with its stdout error message and exit 1 happens before any pipeline
stage; the filesystem is a map from paths to contents. -/
def runFileMode (p : Pipeline) (fs : String → Option String) (filename : String) :
    List OutLine × Option Int :=
  match fs filename with
  | none => ([⟨Channel.stdout, Origin.primary,
              "Error: File '" ++ filename ++ "' not found"⟩], some 1)
  | some source_code => fileModeBody p source_code []

/-- What one REPL iteration does next: leave the loop (break), terminate
the process (sys.exit), or continue to the next prompt. -/
inductive ReplAction where
  | stop : ReplAction
  | exit (code : Int) : ReplAction
  | continue : ReplAction
deriving DecidableEq, Repr

/-- One REPL iteration on one input line (runner.py lines 146-178):
exit/quit breaks, blank input is skipped, a pipeline error is caught and
printed to stdout with the loop continuing, an exit signal terminates the
process, and a normal result is displayed. -/
def replStep (p : Pipeline) (source_code : String) (env : Env) :
    ReplAction × Env × List OutLine :=
  if pyStrip source_code == "exit" || pyStrip source_code == "quit" then
    (.stop, env, [])
  else if pyStrip source_code == "" then
    (.continue, env, [])
  else
    match runPipelineStages p source_code env with
    | .error (m, env', out) =>
        (.continue, env', out ++ [⟨Channel.stdout, Origin.primary, "Error: " ++ m⟩])
    | .ok (v, sig, env', out) =>
        if sig = "exit" then (.exit (pyExitCode v), env', out)
        else (.continue, env', out ++ replResultLines v)

/-- The REPL loop (runner.py lines 143-178) over a finite list of input
lines, threading one environment through all iterations; the result is
the printed output and the sys.exit code if one was requested. -/
def replLoop (p : Pipeline) : List String → Env → List OutLine × Option Int
  | [], _ => ([], none)
  | line :: rest, env =>
      match replStep p line env with
      | (.stop, _, out) => (out, none)
      | (.exit c, _, out) => (out, some c)
      | (.continue, env', out) =>
          let r := replLoop p rest env'
          (out ++ r.1, r.2)

/-- The REPL banner (runner.py lines 138-141); the `Watching:` line is
watch-instrumentation output. -/
def replBanner (watch_var : Option String) : List OutLine :=
  [⟨Channel.stdout, Origin.primary, "Language Interpreter REPL"⟩]
  ++ (match watch_var with
      | some w => if w == "" then [] else [⟨Channel.stdout, Origin.watch, "Watching: " ++ w⟩]
      | none => [])
  ++ [⟨Channel.stdout, Origin.primary, "Type 'exit' or 'quit' to exit\n"⟩]

/-- The `if watch_var:` debug header of main (runner.py lines 108-110):
watch-instrumentation output, printed in both modes.  Python truthiness
makes an empty name falsy (unreachable after argument parsing, which
already rejected it). -/
def watchHeader (watch_var : Option String) : List OutLine :=
  match watch_var with
  | some w =>
      if w == "" then []
      else [⟨Channel.stdout, Origin.watch, "[DEBUG] Watching variable: '" ++ w ++ "'"⟩,
            ⟨Channel.stdout, Origin.watch, ""⟩]
  | none => []

/-- The whole process run: printed lines and the process exit code. -/
structure RunResult where
  out : List OutLine
  exitCode : Int
deriving DecidableEq, Repr

/-- main (runner.py lines 100-178): parse argv (a fatal configuration
error prints and exits before anything else), print the watch header,
then file mode or the REPL over the given stdin lines.  Falling off main
exits with code 0.  Note that main calls the bare pipeline evaluator in
both modes; wrap_evaluate_for_watch is never applied. -/
def mainRun (p : Pipeline) (fs : String → Option String) (argv : List String)
    (inputs : List String) : RunResult :=
  match parse_command_line_args argv with
  | .fatal msg code => ⟨[⟨Channel.stdout, Origin.primary, msg⟩], code⟩
  | .ok filename watch_var =>
    let header := watchHeader watch_var
    match filename with
    | some f =>
        let r := runFileMode p fs f
        ⟨header ++ r.1, r.2.getD 0⟩
    | none =>
        let r := replLoop p inputs []
        ⟨header ++ replBanner watch_var ++ r.1, r.2.getD 0⟩

/-! Helper lemmas shared by the claim theorems. -/

theorem formatValueList_eq_map : ∀ vs, formatValueList vs = vs.map formatValue
  | [] => rfl
  | v :: vs => by rw [formatValueList, List.map_cons, formatValueList_eq_map vs]

theorem formatValuePairs_eq_map :
    ∀ kvs, formatValuePairs kvs =
      kvs.map (fun kv => "\"" ++ kv.1 ++ "\": " ++ formatValue kv.2)
  | [] => rfl
  | (k, v) :: kvs => by
      rw [formatValuePairs, List.map_cons, formatValuePairs_eq_map kvs]

/-- The three-assignment script of the ordering claim, as the parser
collaborator would deliver it: a program node of three assignments to x. -/
def seqAssignScript : AST :=
  .seq (.assign (.identifier "x") (.number 1))
    (.seq (.assign (.identifier "x") (.number 2))
      (.assign (.identifier "x") (.number 3)))

/-- A concrete pipeline delivering that script (tokens are opaque to the
driver; tokenizing and parsing are modelled trivially). -/
def seqAssignPipeline : Pipeline :=
  ⟨fun s => .ok [s], fun _ => .ok seqAssignScript, specEvaluate⟩

/-- A filesystem holding exactly the script file. -/
def seqAssignFs : String → Option String :=
  fun f => if f = "script.t" then some "x=1; x=2; x=3" else none

/-- A watch report line as record_change prints it. -/
def isWatchReport (l : OutLine) : Bool :=
  pyStartsWith l.text "\n[WATCH"

/-- C1: the spec demands exactly three watch reports for `x=1; x=2; x=3`
under `watch=x`; the code emits none.  main never applies
wrap_evaluate_for_watch (lines 124-126 call the bare evaluator), so the
whole run prints only the debug header, although the evaluator did
execute all three assignments (the environment ends at x = 3) — the
program runs correctly, but zero reports appear instead of three. -/
theorem c1_three_assignments_emit_no_watch_reports :
    ((mainRun seqAssignPipeline seqAssignFs ["script.t", "watch=x"] []).out.filter
        isWatchReport).length = 0 ∧
    (mainRun seqAssignPipeline seqAssignFs ["script.t", "watch=x"] []).out =
      [⟨Channel.stdout, Origin.watch, "[DEBUG] Watching variable: 'x'"⟩,
       ⟨Channel.stdout, Origin.watch, ""⟩] ∧
    specEvaluate seqAssignScript [] =
      .ok .null "normal" [("x", .int 3)] [] :=
  ⟨rfl, rfl, rfl⟩

/-- C3: the value formatter is a total function on the value domain (it
is a Lean function, hence deterministic and never failing) satisfying the
spec's canonical mapping clause by clause, with the list clause stating
that formatting a list is the bracketed comma-space concatenation of
formatting each element, and the dict clause quoting keys in insertion
order. -/
theorem c3_formatter_canonical :
    (∀ s, formatValue (.str s) = "\"" ++ s ++ "\"") ∧
    (formatValue (.bool true) = "true") ∧
    (formatValue (.bool false) = "false") ∧
    (formatValue .null = "null") ∧
    (∀ n : Int, formatValue (.int n) = toString n) ∧
    (∀ vs, formatValue (.list vs) =
        "[" ++ String.intercalate ", " (vs.map formatValue) ++ "]") ∧
    (∀ kvs, formatValue (.dict kvs) =
        "\x7b" ++ String.intercalate ", "
          (kvs.map (fun kv => "\"" ++ kv.1 ++ "\": " ++ formatValue kv.2)) ++ "\x7d") := by
  refine ⟨fun s => rfl, rfl, rfl, rfl, fun n => rfl, fun vs => ?_, fun kvs => ?_⟩
  · rw [formatValue, formatValueList_eq_map]
  · rw [formatValue, formatValuePairs_eq_map]

/-- C9: the watch context is constructed with an empty call stack, and no
operation of the driver ever pushes or pops a frame (record_change and
getLocation read it only, and main constructs exactly WatchContext.init).
Hence the location of every emitted report is "at module level", and a
report is either suppressed or exactly the two-line block without the
call-stack-depth line. -/
theorem c9_call_stack_empty_and_depth_line_unreachable
    (wv : Option String) (name : String) (v : Value) :
    (WatchContext.init wv).stack_trace = [] ∧
    (WatchContext.init wv).getLocation = "at module level" ∧
    ((WatchContext.init wv).record_change name v = [] ∨
     (WatchContext.init wv).record_change name v =
       ["\n[WATCH: " ++ name ++ "] New value: " ++ formatValue v,
        "         Location: at module level"]) := by
  refine ⟨rfl, rfl, ?_⟩
  by_cases h : ((WatchContext.init wv).watch_enabled
      && (some name == (WatchContext.init wv).watch_var)) = true
  · right
    have hw : wv = some name :=
      (beq_iff_eq.mp ((Bool.and_eq_true _ _).mp h).2).symm
    subst hw
    simp only [WatchContext.record_change, if_pos h]
    simp [WatchContext.init, WatchContext.getLocation, pyStrOpt]
  · left
    simp only [WatchContext.record_change, if_neg h]

/-- The concrete pipeline that delivers a given syntax tree: tokens are
opaque, parsing is the collaborator's business, evaluation is the
spec-modelled evaluator. -/
def pipelineFor (a : AST) : Pipeline :=
  ⟨fun s => .ok [s], fun _ => .ok a, specEvaluate⟩

/-- A filesystem with no files. -/
def emptyFs : String → Option String := fun _ => none

/-- The primary (non-instrumentation) lines of a run. -/
def primaryOut (r : RunResult) : List OutLine :=
  r.out.filter (fun l => l.origin == Origin.primary)

/-- C2: for every program of the modelled language and every variable
name not appearing in it, a file-mode run with watching disabled and one
with watching enabled on that name print byte-identical primary output
(and exit alike).  In the source the file-mode pipeline (lines 124-126)
never consults watch_var at all, so only the watch-origin debug header
differs between the two runs. -/
theorem c2_unwatched_run_output_identical (a : AST) (w f : String)
    (fs : String → Option String) (inputs argv1 argv2 : List String)
    (hnw : astMentions w a = false)
    (h1 : parse_command_line_args argv1 = .ok (some f) none)
    (h2 : parse_command_line_args argv2 = .ok (some f) (some w)) :
    primaryOut (mainRun (pipelineFor a) fs argv1 inputs) =
      primaryOut (mainRun (pipelineFor a) fs argv2 inputs) ∧
    (mainRun (pipelineFor a) fs argv1 inputs).exitCode =
      (mainRun (pipelineFor a) fs argv2 inputs).exitCode := by
  unfold mainRun
  rw [h1, h2]
  constructor
  · simp only [primaryOut, List.filter_append]
    by_cases hw : (w == "") = true <;>
      simp [watchHeader, hw]
  · rfl

/-- C2 witness: the three-assignment script, which never mentions y. -/
theorem c2_witness :
    primaryOut (mainRun (pipelineFor seqAssignScript) seqAssignFs ["script.t"] []) =
      primaryOut (mainRun (pipelineFor seqAssignScript) seqAssignFs
        ["script.t", "watch=y"] []) :=
  (c2_unwatched_run_output_identical seqAssignScript "y" "script.t" seqAssignFs
    [] ["script.t"] ["script.t", "watch=y"] rfl rfl rfl).1

/-- C4: for an assignment to a simple identifier with watching enabled,
the wrapper first delegates to the real evaluator (value, signal,
environment mutation and printed output are exactly the original's, and a
raising evaluation passes through unchanged), then looks the name up in
the post-evaluation environment and forwards the value to record_change;
a lookup miss emits nothing and is still a normal result, not a
failure. -/
theorem c4_wrapper_delegates_then_reports
    (originalEvaluate : AST → Env → EvalOutcome) (watch_ctx : WatchContext)
    (x : String) (rhs : AST) (env : Env)
    (hw : watch_ctx.watch_enabled = true) :
    (∀ v sig env' out,
        originalEvaluate (.assign (.identifier x) rhs) env = .ok v sig env' out →
        wrappedEvaluate originalEvaluate watch_ctx (.assign (.identifier x) rhs) env =
          .ok v sig env'
            (out ++ (match envLookup env' x with
              | some nv => (watch_ctx.record_change x nv).map
                  (fun s => ⟨Channel.stdout, Origin.watch, s⟩)
              | none => []))) ∧
    (∀ m env' out,
        originalEvaluate (.assign (.identifier x) rhs) env = .err m env' out →
        wrappedEvaluate originalEvaluate watch_ctx (.assign (.identifier x) rhs) env =
          .err m env' out) := by
  constructor
  · intro v sig env' out h
    cases heq : envLookup env' x <;>
      simp [wrappedEvaluate, hw, h, heq]
  · intro m env' out h
    simp [wrappedEvaluate, hw, h]

/-- C4 witness: assigning 5 to the watched x from the empty environment
delegates to the spec evaluator and emits the two-line report. -/
theorem c4_witness :
    wrappedEvaluate specEvaluate (WatchContext.init (some "x"))
        (.assign (.identifier "x") (.number 5)) [] =
      .ok .null "normal" [("x", .int 5)]
        [⟨Channel.stdout, Origin.watch, "\n[WATCH: x] New value: 5"⟩,
         ⟨Channel.stdout, Origin.watch, "         Location: at module level"⟩] :=
  (c4_wrapper_delegates_then_reports specEvaluate (WatchContext.init (some "x"))
    "x" (.number 5) [] rfl).1 .null "normal" [("x", .int 5)] [] rfl

/-- C6 counterexample: a missing file prints the not-found message on
standard output — the stderr-filtered output of the run is empty, so the
claim's "directed to the error stream" fails — while the exit code is 1
as claimed. -/
theorem c6_counterexample :
    (mainRun seqAssignPipeline emptyFs ["missing.t"] []).out =
      [⟨Channel.stdout, Origin.primary, "Error: File 'missing.t' not found"⟩] ∧
    (mainRun seqAssignPipeline emptyFs ["missing.t"] []).out.filter
        (fun l => l.chan == Channel.stderr) = [] ∧
    (mainRun seqAssignPipeline emptyFs ["missing.t"] []).exitCode = 1 :=
  ⟨rfl, rfl, rfl⟩

/-- C6 amended: in file mode a missing script path prints
`Error: File '<path>' not found` on standard output (not the error
stream) and exits with code 1, for every pipeline — no stage of the
pipeline is ever invoked. -/
theorem c6_missing_file_message_on_stdout (p : Pipeline)
    (fs : String → Option String) (argv inputs : List String)
    (f : String) (wv : Option String)
    (hargs : parse_command_line_args argv = .ok (some f) wv)
    (hfs : fs f = none) :
    mainRun p fs argv inputs =
      ⟨watchHeader wv ++
        [⟨Channel.stdout, Origin.primary, "Error: File '" ++ f ++ "' not found"⟩], 1⟩ := by
  unfold mainRun
  rw [hargs]
  simp [runFileMode, hfs]

/-- C6 amended witness: the empty filesystem and a bare path argument. -/
theorem c6_witness :
    mainRun seqAssignPipeline emptyFs ["missing.t"] [] =
      ⟨[⟨Channel.stdout, Origin.primary, "Error: File 'missing.t' not found"⟩], 1⟩ :=
  c6_missing_file_message_on_stdout seqAssignPipeline emptyFs ["missing.t"] []
    "missing.t" none rfl rfl

theorem parseArgsLoop_empty_watch :
    ∀ (argv : List String) (fn wv : Option String), "watch=" ∈ argv →
      parseArgsLoop argv fn wv =
        .fatal "Error: watch argument requires a variable name (watch=variable_name)" 1 := by
  intro argv
  induction argv with
  | nil => intro fn wv h; cases h
  | cons a rest ih =>
    intro fn wv h
    rcases List.mem_cons.mp h with ha | hrest
    · cases ha
      rfl
    · simp only [parseArgsLoop]
      split
      · split
        · rfl
        · exact ih _ _ hrest
      · split
        · exact ih _ _ hrest
        · exact ih _ _ hrest

/-- C7: whenever `watch=` with an empty name occurs anywhere on the
command line, the process prints the configuration error and exits with
code 1, for every pipeline, filesystem and input — so before any
execution or tokenizing can occur. -/
theorem c7_empty_watch_name_fatal (p : Pipeline) (fs : String → Option String)
    (argv inputs : List String) (h : "watch=" ∈ argv) :
    mainRun p fs argv inputs =
      ⟨[⟨Channel.stdout, Origin.primary,
          "Error: watch argument requires a variable name (watch=variable_name)"⟩], 1⟩ := by
  unfold mainRun parse_command_line_args
  rw [parseArgsLoop_empty_watch argv none none h]

/-- C7 witness: argv consisting of exactly `watch=`. -/
theorem c7_witness :
    mainRun seqAssignPipeline emptyFs ["watch="] [] =
      ⟨[⟨Channel.stdout, Origin.primary,
          "Error: watch argument requires a variable name (watch=variable_name)"⟩], 1⟩ :=
  c7_empty_watch_name_fatal seqAssignPipeline emptyFs ["watch="] []
    (List.mem_cons_self _ _)

/-- The exit-with-boolean script of the C8 counterexample. -/
def boolExitScript : AST := .exitStmt (.boolLit true)

/-- Pipeline delivering the exit-with-boolean script. -/
def boolExitPipeline : Pipeline := pipelineFor boolExitScript

/-- Filesystem holding that script under any name. -/
def boolExitFs : String → Option String := fun _ => some "exit(true);"

/-- C8 counterexample: the evaluator hands back the boolean true with the
exit signal; the claim says a non-integer final value yields the default
exit code 0, but the process exits with code 1, because Python's
isinstance(final_value, int) is true of booleans and sys.exit(True)
terminates with code 1. -/
theorem c8_counterexample :
    specEvaluate boolExitScript [] = .ok (.bool true) "exit" [] [] ∧
    (mainRun boolExitPipeline boolExitFs ["prog.t"] []).exitCode = 1 ∧
    (mainRun boolExitPipeline boolExitFs ["prog.t"] []).exitCode ≠ 0 :=
  ⟨rfl, rfl, by decide⟩

/-- C8 amended: on an exit signal both modes terminate with the carried
value as exit code when it is an integer; a boolean is treated as an
integer by the host (code 1 for true, 0 for false); every other
non-integer value yields the default code 0. -/
theorem c8_exit_signal_code (p : Pipeline) (src : String) (env env' : Env)
    (v : Value) (out : List OutLine)
    (hx : (pyStrip src == "exit" || pyStrip src == "quit") = false)
    (hb : (pyStrip src == "") = false)
    (h : runPipelineStages p src env = .ok (v, "exit", env', out)) :
    fileModeBody p src env = (out, some (pyExitCode v)) ∧
    replStep p src env = (.exit (pyExitCode v), env', out) ∧
    (∀ n : Int, pyExitCode (.int n) = n) ∧
    pyExitCode (.bool true) = 1 ∧
    pyExitCode (.bool false) = 0 ∧
    pyExitCode .null = 0 ∧
    (∀ s, pyExitCode (.str s) = 0) ∧
    (∀ vs, pyExitCode (.list vs) = 0) ∧
    (∀ kvs, pyExitCode (.dict kvs) = 0) := by
  refine ⟨?_, ?_, fun n => rfl, rfl, rfl, rfl, fun s => rfl, fun vs => rfl, fun kvs => rfl⟩
  · simp [fileModeBody, h]
  · simp [replStep, hx, hb, h]

/-- C8 witness: a script that exits with the integer 3, run through one
REPL step. -/
theorem c8_witness :
    replStep (pipelineFor (.exitStmt (.number 3))) "exit(3);" [] =
      (.exit 3, [], []) :=
  (c8_exit_signal_code (pipelineFor (.exitStmt (.number 3))) "exit(3);" [] []
    (.int 3) [] (by decide) (by decide) rfl).2.1

theorem envSet_keeps {env : Env} {k : String} (x : String) (v : Value)
    (h : (envLookup env k).isSome = true) :
    (envLookup (envSet env x v) k).isSome = true := by
  induction env with
  | nil => simp [envLookup] at h
  | cons p rest ih =>
    obtain ⟨k', v'⟩ := p
    simp only [envSet]
    by_cases h1 : k' = x
    · rw [if_pos h1]
      simp only [envLookup] at h ⊢
      by_cases h2 : k' = k
      · rw [if_pos h2]; rfl
      · rw [if_neg h2]; rw [if_neg h2] at h; exact h
    · rw [if_neg h1]
      simp only [envLookup] at h ⊢
      by_cases h2 : k' = k
      · rw [if_pos h2]; rfl
      · rw [if_neg h2]; rw [if_neg h2] at h; exact ih h

/-- The spec-modelled evaluator never removes a binding: every name bound
before a call is still bound afterwards, whether the call returns
normally or raises (spec section 3's environment invariant). -/
theorem specEvaluate_keeps (ast : AST) : ∀ (env : Env) (k : String),
    (envLookup env k).isSome = true →
    (envLookup (specEvaluate ast env).envOf k).isSome = true := by
  induction ast with
  | number n => intro env k h; exact h
  | boolLit b => intro env k h; exact h
  | strLit s => intro env k h; exact h
  | identifier x =>
      intro env k h
      cases heq : envLookup env x <;>
        simp only [specEvaluate, heq, EvalOutcome.envOf] <;> exact h
  | assign target rhs iht ihr =>
      intro env k h
      cases target
      case identifier x =>
        cases heq : specEvaluate rhs env with
        | ok v sig env' out =>
            have hkeep := ihr env k h
            rw [heq] at hkeep
            simp only [EvalOutcome.envOf] at hkeep
            simp only [specEvaluate, heq, EvalOutcome.envOf]
            exact envSet_keeps x v hkeep
        | err m env' out =>
            have hkeep := ihr env k h
            rw [heq] at hkeep
            simp only [EvalOutcome.envOf] at hkeep
            simp only [specEvaluate, heq, EvalOutcome.envOf]
            exact hkeep
      all_goals exact h
  | seq a b iha ihb =>
      intro env k h
      cases heq : specEvaluate a env with
      | ok v sig env' out =>
          have ha := iha env k h
          rw [heq] at ha
          simp only [EvalOutcome.envOf] at ha
          by_cases hsig : sig = "exit"
          · subst hsig
            simp [specEvaluate, heq, EvalOutcome.envOf]
            exact ha
          · have hb2 := ihb env' k ha
            simp only [specEvaluate, heq, if_neg hsig]
            cases heq2 : specEvaluate b env' with
            | ok v2 sig2 env2 out2 =>
                rw [heq2] at hb2
                simp only [EvalOutcome.envOf] at hb2 ⊢
                exact hb2
            | err m2 env2 out2 =>
                rw [heq2] at hb2
                simp only [EvalOutcome.envOf] at hb2 ⊢
                exact hb2
      | err m env' out =>
          have ha := iha env k h
          rw [heq] at ha
          simp only [EvalOutcome.envOf] at ha
          simp only [specEvaluate, heq, EvalOutcome.envOf]
          exact ha
  | printStmt e ihe =>
      intro env k h
      cases heq : specEvaluate e env with
      | ok v sig env' out =>
          have := ihe env k h
          rw [heq] at this
          simp only [EvalOutcome.envOf] at this
          simp only [specEvaluate, heq, EvalOutcome.envOf]
          exact this
      | err m env' out =>
          have := ihe env k h
          rw [heq] at this
          simp only [EvalOutcome.envOf] at this
          simp only [specEvaluate, heq, EvalOutcome.envOf]
          exact this
  | exitStmt e ihe =>
      intro env k h
      cases heq : specEvaluate e env with
      | ok v sig env' out =>
          have := ihe env k h
          rw [heq] at this
          simp only [EvalOutcome.envOf] at this
          simp only [specEvaluate, heq, EvalOutcome.envOf]
          exact this
      | err m env' out =>
          have := ihe env k h
          rw [heq] at this
          simp only [EvalOutcome.envOf] at this
          simp only [specEvaluate, heq, EvalOutcome.envOf]
          exact this

/-- C5: with the spec-modelled evaluator (and arbitrary tokenizer and
parser collaborators), a REPL iteration whose pipeline fails catches the
error, prints it, and continues: the loop goes on to the next prompt with
an environment in which every name bound before the error is still bound,
and a subsequent valid statement succeeds against that environment.  The
same failing source in file mode prints the error to stderr and exits
with code 1. -/
theorem c5_repl_errors_nonfatal_file_fatal (p : Pipeline)
    (hpe : p.evaluate = specEvaluate)
    (line : String) (env env' : Env) (msg : String) (out : List OutLine)
    (hx : (pyStrip line == "exit" || pyStrip line == "quit") = false)
    (hb : (pyStrip line == "") = false)
    (hfail : runPipelineStages p line env = .error (msg, env', out)) :
    replStep p line env =
      (.continue, env', out ++ [⟨Channel.stdout, Origin.primary, "Error: " ++ msg⟩]) ∧
    (∀ rest, replLoop p (line :: rest) env =
      ((out ++ [⟨Channel.stdout, Origin.primary, "Error: " ++ msg⟩])
          ++ (replLoop p rest env').1,
        (replLoop p rest env').2)) ∧
    (∀ k, (envLookup env k).isSome = true → (envLookup env' k).isSome = true) ∧
    (∀ line2 v sig env2 out2,
        (pyStrip line2 == "exit" || pyStrip line2 == "quit") = false →
        (pyStrip line2 == "") = false →
        sig ≠ "exit" →
        runPipelineStages p line2 env' = .ok (v, sig, env2, out2) →
        replStep p line2 env' = (.continue, env2, out2 ++ replResultLines v)) ∧
    fileModeBody p line env =
      (out ++ [⟨Channel.stderr, Origin.primary, "Error: " ++ msg⟩], some 1) := by
  have hstep : replStep p line env =
      (.continue, env', out ++ [⟨Channel.stdout, Origin.primary, "Error: " ++ msg⟩]) := by
    simp [replStep, hx, hb, hfail]
  refine ⟨hstep, ?_, ?_, ?_, ?_⟩
  · intro rest
    simp [replLoop, hstep]
  · intro k hk
    cases htok : p.tokenize line with
    | error e =>
        simp only [runPipelineStages, htok, Except.error.injEq, Prod.mk.injEq] at hfail
        rw [← hfail.2.1]
        exact hk
    | ok tokens =>
        cases hpar : p.parse tokens with
        | error e =>
            simp only [runPipelineStages, htok, hpar, Except.error.injEq,
              Prod.mk.injEq] at hfail
            rw [← hfail.2.1]
            exact hk
        | ok ast =>
            cases hev : specEvaluate ast env with
            | ok v sig env2 out2 =>
                rw [← hpe] at hev
                simp [runPipelineStages, htok, hpar, hev] at hfail
            | err m2 env2 out2 =>
                have hkeep := specEvaluate_keeps ast env k hk
                rw [hev] at hkeep
                simp only [EvalOutcome.envOf] at hkeep
                rw [← hpe] at hev
                simp only [runPipelineStages, htok, hpar, hev, Except.error.injEq,
                  Prod.mk.injEq] at hfail
                rw [← hfail.2.1]
                exact hkeep
  · intro line2 v sig env2 out2 hx2 hb2 hsig hok
    simp [replStep, hx2, hb2, hok, hsig]
  · simp [fileModeBody, hfail]

/-- A pipeline whose tokenizer always raises a lexical error. -/
def lexBoomPipeline : Pipeline :=
  ⟨fun _ => .error "lex boom", fun _ => .ok seqAssignScript, specEvaluate⟩

/-- C5 witness: a lexical failure in one REPL iteration is printed and
the loop continues. -/
theorem c5_witness :
    replStep lexBoomPipeline "x" [] =
      (.continue, [], [⟨Channel.stdout, Origin.primary, "Error: lex boom"⟩]) :=
  (c5_repl_errors_nonfatal_file_fatal lexBoomPipeline rfl "x" [] [] "lex boom" []
    (by decide) (by decide) rfl).1

/-- C10: the REPL result display prints nothing at all for a null final
value under a normal signal — the whole display block is guarded by the
not-None check — and the inner branch that would print the text null is
dead: the display function equals, on every value, the spec's display
rule written without that branch. -/
theorem c10_null_result_prints_nothing :
    (∀ (p : Pipeline) (line : String) (env : Env) (sig : String)
        (env' : Env) (out : List OutLine),
        (pyStrip line == "exit" || pyStrip line == "quit") = false →
        (pyStrip line == "") = false →
        sig ≠ "exit" →
        runPipelineStages p line env = .ok (Value.null, sig, env', out) →
        replStep p line env = (.continue, env', out)) ∧
    replResultLines Value.null = [] ∧
    (∀ v, replResultLines v = replDisplaySpec v) := by
  refine ⟨?_, rfl, ?_⟩
  · intro p line env sig env' out hx hb hsig hok
    simp [replStep, hx, hb, hok, hsig, replResultLines, isNone]
  · intro v
    cases v <;> rfl

/-- C10 witness: an assignment statement yields a null final value and
the REPL iteration prints nothing. -/
theorem c10_witness :
    replStep (pipelineFor (.assign (.identifier "n") (.number 0))) "n = 0" [] =
      (.continue, [("n", .int 0)], []) :=
  c10_null_result_prints_nothing.1
    (pipelineFor (.assign (.identifier "n") (.number 0))) "n = 0" []
    "normal" [("n", .int 0)] [] (by decide) (by decide) (by decide) rfl

end Runner
